import Mathlib

/-
  Verification of the Movie-recommender vectorization and recommendation core.

  Shallow embedding of `backend/tfidf_service.py` and
  `backend/recommendation_service.py`.  NumPy float vectors are modelled as
  lists of real numbers; the SQLAlchemy session / pgvector store is modelled
  as explicit state (a list of vector rows plus the set of known movie ids);
  Python exceptions are modelled with `Except` or explicit failure flags.
-/

namespace MovieRec

/-- Fixed vector dimension, `VECTOR_DIM = 512` in `tfidf_service.py`. -/
def VECTOR_DIM : ℕ := 512

/-- Genre row (`models.Genre`): TMDb id and name. -/
structure Genre where
  id : ℤ
  name : String
deriving DecidableEq

/-- Keyword row (`models.Keyword`): TMDb id and name. -/
structure Keyword where
  id : ℤ
  name : String
deriving DecidableEq

/-- Movie row (`models.Movie`), restricted to the fields the vectorization
core reads: id, title, nullable overview text, and the related genre and
keyword rows.  A Python `None` overview is `none`. -/
structure Movie where
  id : ℤ
  title : String
  overview : Option String
  genres : List Genre
  keywords : List Keyword
deriving DecidableEq

/-- Embedding of `tfidf_service.create_movie_text`.  The Python code builds a
`parts` list by conditionally extending with 5 copies of the joined genre
names, 3 copies of the overview, 2 copies of the joined keyword names (each
guarded by Python truthiness: empty list / `None` / empty string are falsy),
then space-joins. -/
def create_movie_text (movie : Movie) : String :=
  let parts : List String := []
  let parts := if movie.genres.isEmpty then parts else
    parts ++ List.replicate 5 (String.intercalate " " (movie.genres.map Genre.name))
  let parts :=
    match movie.overview with
    | none => parts
    | some ov => if ov.isEmpty then parts else parts ++ List.replicate 3 ov
  let parts := if movie.keywords.isEmpty then parts else
    parts ++ List.replicate 2 (String.intercalate " " (movie.keywords.map Keyword.name))
  String.intercalate " " parts

/-- The genre text block: genre names space-joined. -/
def genreText (movie : Movie) : String :=
  String.intercalate " " (movie.genres.map Genre.name)

/-- The keyword text block: keyword names space-joined. -/
def keywordText (movie : Movie) : String :=
  String.intercalate " " (movie.keywords.map Keyword.name)

/-- Python truthiness of `movie.overview` (`None` and `""` are falsy). -/
def overviewPresent (movie : Movie) : Bool :=
  match movie.overview with
  | none => false
  | some ov => !ov.isEmpty

/-- The overview text (empty string when absent). -/
def overviewText (movie : Movie) : String := movie.overview.getD ""

/-- Spec-side reading of the Weighted Text Composer: the final string is the
space-join of the genre block repeated exactly 5 times, the overview block
repeated exactly 3 times, and the keyword block repeated exactly 2 times,
where an absent or empty block contributes no repeats at all. -/
def composedParts (movie : Movie) : List String :=
  (if movie.genres = [] then [] else List.replicate 5 (genreText movie)) ++
  (if overviewPresent movie then List.replicate 3 (overviewText movie) else []) ++
  (if movie.keywords = [] then [] else List.replicate 2 (keywordText movie))

/-- Embedding of `tfidf_service.pad_or_truncate_vector`, polymorphic over the
scalar type (the Python code works on NumPy arrays of floats). -/
def pad_or_truncate_vector {α : Type} [Zero α] (vector : List α) (target_dim : ℕ) : List α :=
  let current_dim := vector.length
  if current_dim = target_dim then vector
  else if current_dim > target_dim then vector.take target_dim
  else vector ++ List.replicate (target_dim - current_dim) (0 : α)

/-- Sum of squared components of a vector. -/
def sumSq (v : List ℝ) : ℝ := (v.map (fun x => x * x)).sum

/-- Euclidean norm of a vector, `np.linalg.norm`. -/
noncomputable def l2norm (v : List ℝ) : ℝ := Real.sqrt (sumSq v)

/-- The normalization step of `get_user_preference_vector`: the code divides
by the norm only when `norm > 0`, otherwise leaves the vector unchanged. -/
noncomputable def normalizeIfPos (v : List ℝ) : List ℝ :=
  if 0 < l2norm v then v.map (fun x => x / l2norm v) else v

/-- Component-wise sum of two vectors. -/
def vecAdd (a b : List ℝ) : List ℝ := List.zipWith (· + ·) a b

/-- Component-wise sum of a list of vectors (empty sum is the empty vector). -/
def vecSum : List (List ℝ) → List ℝ
  | [] => []
  | v :: vs => vs.foldl vecAdd v

/-- Component-wise arithmetic mean, `np.mean(vectors, axis=0)`. -/
noncomputable def vecMean (vs : List (List ℝ)) : List ℝ :=
  (vecSum vs).map (fun x => x / (vs.length : ℝ))

/-- Embedding of `recommendation_service.get_user_preference_vector`.  The
vector store is a partial map from movie id to stored vector (a DB row whose
`tfidf_vector` is `NULL` also resolves to `none`).  IDs with no stored vector
are skipped (`List.filterMap`); with no ids or no resolved vectors the result
is `none`; otherwise the mean of the resolved vectors is L2-normalized unless
its norm is not positive. -/
noncomputable def get_user_preference_vector (store : ℤ → Option (List ℝ))
    (movie_ids : List ℤ) : Option (List ℝ) :=
  if movie_ids = [] then none
  else
    let vectors := movie_ids.filterMap store
    if vectors = [] then none
    else some (normalizeIfPos (vecMean vectors))

/-- Spec-side normalization: L2-normalize, except that a vector whose norm is
exactly zero is returned unchanged rather than divided by zero. -/
noncomputable def l2NormalizeSpec (v : List ℝ) : List ℝ :=
  if l2norm v = 0 then v else v.map (fun x => x / l2norm v)

/-- Concrete store used to instantiate the aggregator: movie 1 has a stored
vector, every other id resolves to nothing. -/
noncomputable def storeW : ℤ → Option (List ℝ) :=
  fun i => if i = 1 then some [3, 4] else none

/-- A row of the `movie_vectors` table. -/
structure VectorRow where
  movie_id : ℤ
  tfidf_vector : List ℝ

/-- Database state visible to the recommendation service: the ids of the
movies present in `movies` and the rows of `movie_vectors`. -/
structure DBState where
  movie_ids : List ℤ
  vectors : List VectorRow

/-- Looking a movie's vector up,
`db.query(MovieVector).filter(MovieVector.movie_id == id).first()`. -/
def lookupVector (st : DBState) (movie_id : ℤ) : Option (List ℝ) :=
  (st.vectors.find? (fun r => r.movie_id == movie_id)).map VectorRow.tfidf_vector

/-- Dot product of two vectors. -/
def dotProd (a b : List ℝ) : ℝ := (List.zipWith (· * ·) a b).sum

/-- Modelled from the spec: the similarity query is executed by the external
vector store (pgvector's `<=>` operator); it orders by cosine distance,
`1 - cos(a, b)`. -/
noncomputable def cosineDistance (a b : List ℝ) : ℝ :=
  1 - dotProd a b / (l2norm a * l2norm b)

/-- Row ordering used by `ORDER BY mv.tfidf_vector <=> query`: ascending
cosine distance to the query vector. -/
noncomputable def distLE (q : List ℝ) (r s : VectorRow) : Prop :=
  cosineDistance q r.tfidf_vector ≤ cosineDistance q s.tfidf_vector

noncomputable instance (q : List ℝ) : DecidableRel (distLE q) :=
  fun _ _ => Real.decidableLE _ _

/-- Modelled from the spec: the store's `top_k_similar` capability, which the
SQL in `recommend_movies` / `get_similar_movies` delegates to pgvector.  Rows
whose id is in the exclusion set are filtered out (`WHERE m.id NOT IN (...)`),
the rest are ordered by ascending cosine distance to the query
(`ORDER BY ... <=>`), and at most `k` rows are returned (`LIMIT k`). -/
noncomputable def top_k_similar (rows : List VectorRow) (q : List ℝ) (k : ℕ)
    (exclude_ids : List ℤ) : List VectorRow :=
  ((rows.filter (fun r => !(exclude_ids.contains r.movie_id))).insertionSort
    (distLE q)).take k

/-- Embedding of `recommendation_service.recommend_movies`.  Two distinct
failure points of the vector store are modelled: `storeRaises` is the store
raising on the `db.query(MovieVector)` reads issued by
`get_user_preference_vector` — those run before the `try` block, so the
exception escapes the function (they are only reached when the id list is
non-empty, since with no ids the aggregator returns early); `queryFails` is
the similarity query raising inside the `try` block, whose `except` branch
returns the empty list.  The function only reads the session, so the state
is returned unchanged on every path. -/
noncomputable def recommend_movies (st : DBState) (user_movie_ids : List ℤ)
    (limit : ℕ) (exclude_selected : Bool) (storeRaises queryFails : Bool) :
    Except String (List VectorRow) × DBState :=
  if storeRaises && !user_movie_ids.isEmpty then (.error "store failure", st)
  else
    match get_user_preference_vector (lookupVector st) user_movie_ids with
    | none => (.ok [], st)
    | some q =>
        if queryFails then (.ok [], st)
        else (.ok (top_k_similar st.vectors q limit
          (if exclude_selected then user_movie_ids else [])), st)

/-- Embedding of `recommendation_service.get_similar_movies`: the base
movie's own vector seeds the query and the base id is excluded
(`WHERE m.id != :movie_id`).  `storeRaises` models the store raising on the
base-vector read, which runs before the `try` block and therefore escapes
the function; a missing base vector or a raising similarity query
(`queryFails`, inside the `try`) yields the empty list.  The state is
returned unchanged on every path. -/
noncomputable def get_similar_movies (st : DBState) (movie_id : ℤ)
    (limit : ℕ) (storeRaises queryFails : Bool) :
    Except String (List VectorRow) × DBState :=
  if storeRaises then (.error "store failure", st)
  else
    match lookupVector st movie_id with
    | none => (.ok [], st)
    | some v =>
        if queryFails then (.ok [], st)
        else (.ok (top_k_similar st.vectors v limit [movie_id]), st)

/-- Concrete vector rows used to instantiate the ranker. -/
def rowA : VectorRow := ⟨7, [1, 0]⟩

/-- Second concrete vector row, whose id is in the exclusion set below. -/
def rowB : VectorRow := ⟨5, [0, 1]⟩

/-- The result dictionary built by `ensure_vectors_exist`. -/
structure EnsureResult where
  total : ℕ
  already_exists : ℕ
  newly_created : ℕ
  failed : ℕ
  failed_ids : List ℤ

/-- One iteration of the loop in `recommendation_service.ensure_vectors_exist`:
if a vector row already exists the id is only counted; otherwise, if the
movie row is missing the id is recorded as failed; otherwise
`generate_and_save_vector` runs — modelled by the oracle `gen`, which returns
the generated vector on success (the vector is then persisted by appending a
row) and `none` when it returns `False` or raises (the exception is caught,
the id is recorded as failed, and the loop continues). -/
def ensure_step (gen : ℤ → Option (List ℝ)) (acc : EnsureResult × DBState)
    (movie_id : ℤ) : EnsureResult × DBState :=
  match lookupVector acc.2 movie_id with
  | some _ => ({ acc.1 with already_exists := acc.1.already_exists + 1 }, acc.2)
  | none =>
      if movie_id ∈ acc.2.movie_ids then
        match gen movie_id with
        | some v =>
            ({ acc.1 with newly_created := acc.1.newly_created + 1 },
             { acc.2 with vectors := acc.2.vectors ++ [⟨movie_id, v⟩] })
        | none =>
            (⟨acc.1.total, acc.1.already_exists, acc.1.newly_created,
              acc.1.failed + 1, acc.1.failed_ids ++ [movie_id]⟩, acc.2)
      else
        (⟨acc.1.total, acc.1.already_exists, acc.1.newly_created,
          acc.1.failed + 1, acc.1.failed_ids ++ [movie_id]⟩, acc.2)

/-- Embedding of `recommendation_service.ensure_vectors_exist`: fold the loop
body over the requested ids, starting from the zeroed result dictionary. -/
def ensure_vectors_exist (gen : ℤ → Option (List ℝ)) (movie_ids : List ℤ)
    (st : DBState) : EnsureResult × DBState :=
  movie_ids.foldl (ensure_step gen) (⟨movie_ids.length, 0, 0, 0, []⟩, st)

/-- Concrete generation oracle that always succeeds. -/
def genW : ℤ → Option (List ℝ) := fun _ => some [1]

/-- Concrete database containing movie 3 and no vectors. -/
def dbW : DBState := ⟨[3], []⟩

/-- Modelled from the spec: the trained Vocabulary Model (scikit-learn's
`TfidfVectorizer` and the konlpy tokenizer are external collaborators).  It
holds the selected vocabulary, each term paired with its stored IDF weight,
plus the pluggable tokenizer capability. -/
structure Vectorizer where
  vocab : List (String × ℝ)
  tokenize : String → List String

/-- Number of occurrences of a token in a token sequence. -/
def countTok (t : String) (tokens : List String) : ℕ :=
  (tokens.filter (fun s => s == t)).length

/-- Modelled from the spec: sublinear term-frequency scaling (logarithmic
dampening of raw counts; a count of zero contributes zero). -/
noncomputable def sublinearTf (c : ℕ) : ℝ := if c = 0 then 0 else 1 + Real.log c

/-- Modelled from the spec: the raw weight vector over the trained
vocabulary — for each vocabulary term, sublinear term frequency times the
term's stored IDF weight; tokens absent from the vocabulary have no
coordinate of their own. -/
noncomputable def rawWeights (V : Vectorizer) (tokens : List String) : List ℝ :=
  V.vocab.map (fun p => sublinearTf (countTok p.1 tokens) * p.2)

/-- Modelled from the spec: `vectorizer.transform([text])` — tokenize, weigh
against the vocabulary, then L2-normalize (a zero vector stays zero). -/
noncomputable def transform (V : Vectorizer) (text : String) : List ℝ :=
  normalizeIfPos (rawWeights V (V.tokenize text))

/-- Embedding of `tfidf_service.generate_tfidf_vector`: when no vectorizer
is passed, the one serialized on disk is loaded (`loaded` is the outcome of
`load_vectorizer`, `none` when the file does not exist); with no model at
all a `ValueError` is raised, otherwise the composed text is transformed and
normalized to 512 dimensions. -/
noncomputable def generate_tfidf_vector (movie : Movie)
    (vectorizer : Option Vectorizer) (loaded : Option Vectorizer) :
    Except String (List ℝ) :=
  match vectorizer with
  | some V =>
      .ok (pad_or_truncate_vector (transform V (create_movie_text movie)) VECTOR_DIM)
  | none =>
      match loaded with
      | some V =>
          .ok (pad_or_truncate_vector (transform V (create_movie_text movie)) VECTOR_DIM)
      | none => .error "Vectorizer not found. Please run batch generation first."

/-- Concrete vectorizer with a one-term vocabulary and a tokenizer mapping
the empty text to no tokens. -/
def vzW : Vectorizer := ⟨[("genre", 1)], fun s => if s = "" then [] else [s]⟩

/-- Concrete movie with no genres, an empty overview and no keywords. -/
def movieW : Movie := ⟨2, "e", some "", [], []⟩

/-- The in-memory `TfidfVectorizer` object as `save_vectorizer` sees it: its
`tokenizer` attribute (detachable, `None` when detached) and all its other
attributes — vocabulary, IDF weights, parameters — abstracted as `Γ`, which
the function never touches. -/
structure PickleVectorizer (Tok : Type) (Γ : Type) where
  tokenizer : Option Tok
  fitted : Γ

/-- Embedding of `tfidf_service.save_vectorizer`: remember the tokenizer,
detach it (`vectorizer.tokenizer = None`), pickle — which may raise,
modelled by `dumpOk = false` — and restore the tokenizer in the `finally`
block, re-raising any exception afterwards. -/
def save_vectorizer {Tok Γ : Type} (dumpOk : Bool)
    (vectorizer : PickleVectorizer Tok Γ) :
    Except String Unit × PickleVectorizer Tok Γ :=
  let original_tokenizer := vectorizer.tokenizer
  let detached : PickleVectorizer Tok Γ := { vectorizer with tokenizer := none }
  let dumpResult : Except String Unit :=
    if dumpOk then .ok () else .error "pickle failure"
  (dumpResult, { detached with tokenizer := original_tokenizer })

/-- In-place update of the first row matching the id, as the ORM does when
`save_movie_vector` finds an existing row. -/
def updateFirst : List VectorRow → ℤ → List ℝ → List VectorRow
  | [], _, _ => []
  | r :: rs, movie_id, v =>
      if r.movie_id == movie_id then { r with tfidf_vector := v } :: rs
      else r :: updateFirst rs movie_id v

/-- The upsert `save_movie_vector` performs: update the existing row if one
is found, otherwise insert a new row. -/
def upsertVector (store : List VectorRow) (movie_id : ℤ) (v : List ℝ) :
    List VectorRow :=
  match store.find? (fun r => r.movie_id == movie_id) with
  | some _ => updateFirst store movie_id v
  | none => store ++ [⟨movie_id, v⟩]

/-- Embedding of `tfidf_service.save_movie_vector`: the lookup or the commit
may raise (`failQuery` / `failCommit`); any exception is caught, the session
is rolled back — the committed store is left as it was — and `False` is
returned; only a successful commit publishes the upsert and returns
`True`. -/
def save_movie_vector (movie_id : ℤ) (vector : List ℝ)
    (store : List VectorRow) (failQuery failCommit : Bool) :
    Bool × List VectorRow :=
  if failQuery then (false, store)
  else if failCommit then (false, store)
  else (true, upsertVector store movie_id vector)

/-- An item with no genres, no (non-empty) overview and no keywords composes
to the empty document. -/
theorem create_movie_text_of_empty (m : Movie) (hg : m.genres = [])
    (hov : overviewPresent m = false) (hk : m.keywords = []) :
    create_movie_text m = "" := by
  obtain ⟨i, t, ov, gs, ks⟩ := m
  simp only at hg hk
  subst hg; subst hk
  cases ov with
  | none => rfl
  | some s =>
    have hs : s.isEmpty = true := by simpa [overviewPresent] using hov
    simp [create_movie_text, hs, String.intercalate]

/-- C3: for every item, `create_movie_text` returns the single space-joined
string made of the genre-name block repeated exactly 5 times, the overview
block repeated exactly 3 times and the keyword-name block repeated exactly 2
times, absent/empty blocks contributing nothing; an item with no textual
attributes at all yields the empty string (the function is total, so it
never fails). -/
theorem create_movie_text_spec (m : Movie) :
    create_movie_text m = String.intercalate " " (composedParts m) ∧
    (m.genres = [] → overviewPresent m = false → m.keywords = [] →
      create_movie_text m = "") := by
  refine ⟨?_, create_movie_text_of_empty m⟩
  obtain ⟨i, t, ov, gs, ks⟩ := m
  cases ov with
  | none =>
    cases gs <;> cases ks <;>
      simp [create_movie_text, composedParts, genreText, keywordText,
        overviewPresent, overviewText]
  | some s =>
    by_cases hs : s.isEmpty <;> cases gs <;> cases ks <;>
      simp [create_movie_text, composedParts, genreText, keywordText,
        overviewPresent, overviewText, hs]

/-- C3 witness: a movie with no genres, no overview and no keywords composes
to the empty string. -/
theorem create_movie_text_spec_witness :
    create_movie_text ⟨1, "t", none, [], []⟩ = "" :=
  (create_movie_text_spec ⟨1, "t", none, [], []⟩).2 rfl rfl rfl

/-- C4: the Dimension Normalizer is total and its output always has exactly
512 components: a length-512 input is returned unchanged, a longer input is
truncated by dropping trailing components, and a shorter input is zero-padded
on the right. -/
theorem pad_or_truncate_vector_spec (v : List ℝ) :
    (pad_or_truncate_vector v VECTOR_DIM).length = VECTOR_DIM ∧
    (v.length = VECTOR_DIM → pad_or_truncate_vector v VECTOR_DIM = v) ∧
    (VECTOR_DIM < v.length → pad_or_truncate_vector v VECTOR_DIM = v.take VECTOR_DIM) ∧
    (v.length < VECTOR_DIM →
      pad_or_truncate_vector v VECTOR_DIM = v ++ List.replicate (VECTOR_DIM - v.length) 0) := by
  refine ⟨?_, ?_, ?_, ?_⟩
  · simp only [pad_or_truncate_vector]
    split_ifs with h1 h2
    · exact h1
    · simp [List.length_take]; omega
    · simp [List.length_append, List.length_replicate]; omega
  · intro h; simp [pad_or_truncate_vector, h]
  · intro h; simp only [pad_or_truncate_vector]; split_ifs with h1
    · omega
    · rfl
  · intro h; simp only [pad_or_truncate_vector]; split_ifs with h1 h2
    · omega
    · omega
    · rfl

/-- C4 witness: a length-2 input is padded with 510 zeros to length 512. -/
theorem pad_or_truncate_vector_spec_witness :
    pad_or_truncate_vector ([1, 2] : List ℝ) VECTOR_DIM =
      [1, 2] ++ List.replicate (VECTOR_DIM - ([1, 2] : List ℝ).length) 0 :=
  (pad_or_truncate_vector_spec [1, 2]).2.2.2 (by simp [VECTOR_DIM])

/-- The norm test in the code (`norm > 0`) agrees with the spec's reading
(normalize unless the norm is exactly zero), because a Euclidean norm is
never negative. -/
theorem normalizeIfPos_eq_l2NormalizeSpec (v : List ℝ) :
    normalizeIfPos v = l2NormalizeSpec v := by
  have h0 : 0 ≤ l2norm v := by unfold l2norm; exact Real.sqrt_nonneg _
  by_cases hz : l2norm v = 0
  · simp [normalizeIfPos, l2NormalizeSpec, hz]
  · have hpos : 0 < l2norm v := lt_of_le_of_ne h0 (Ne.symm hz)
    simp [normalizeIfPos, l2NormalizeSpec, hz, hpos]

/-- C1: for a non-empty id list the Preference Aggregator skips ids with no
stored vector; when no vector resolves it returns `none` (no exception, no
division by zero), and when at least one resolves it returns the
component-wise mean of the resolved vectors, L2-normalized, a zero-norm mean
being returned unchanged. -/
theorem get_user_preference_vector_spec (store : ℤ → Option (List ℝ))
    (ids : List ℤ) (h : ids ≠ []) :
    (ids.filterMap store = [] → get_user_preference_vector store ids = none) ∧
    (ids.filterMap store ≠ [] →
      get_user_preference_vector store ids =
        some (l2NormalizeSpec (vecMean (ids.filterMap store)))) := by
  constructor <;> intro hv <;>
    simp [get_user_preference_vector, h, hv, normalizeIfPos_eq_l2NormalizeSpec]

/-- C1 witness: with a store holding a vector only for movie 1, the id list
`[1, 2]` resolves one vector (id 2 is skipped) and the aggregator returns the
normalized mean of that single vector. -/
theorem get_user_preference_vector_spec_witness :
    get_user_preference_vector storeW [1, 2] =
      some (l2NormalizeSpec (vecMean (([1, 2] : List ℤ).filterMap storeW))) :=
  (get_user_preference_vector_spec storeW [1, 2] (by decide)).2
    (by simp [storeW, List.filterMap_cons])

/-- The ranker never returns more than `k` rows. -/
theorem top_k_similar_length_le (rows : List VectorRow) (q : List ℝ) (k : ℕ)
    (excl : List ℤ) : (top_k_similar rows q k excl).length ≤ k := by
  simp only [top_k_similar]
  exact List.length_take_le _ _

/-- The ranker never returns a row whose id is in the exclusion set. -/
theorem top_k_similar_not_excluded (rows : List VectorRow) (q : List ℝ) (k : ℕ)
    (excl : List ℤ) : ∀ r ∈ top_k_similar rows q k excl, r.movie_id ∉ excl := by
  intro r hr
  have h1 : r ∈ (rows.filter
      (fun r => !(excl.contains r.movie_id))).insertionSort (distLE q) :=
    List.mem_of_mem_take hr
  have h2 : r ∈ rows.filter (fun r => !(excl.contains r.movie_id)) :=
    (List.perm_insertionSort _ _).mem_iff.mp h1
  have h3 := (List.mem_filter.mp h2).2
  simpa using h3

/-- The ranker's output is sorted by ascending cosine distance to the query. -/
theorem top_k_similar_sorted (rows : List VectorRow) (q : List ℝ) (k : ℕ)
    (excl : List ℤ) : (top_k_similar rows q k excl).Sorted (distLE q) := by
  haveI : IsTotal VectorRow (distLE q) := ⟨fun a b => le_total _ _⟩
  haveI : IsTrans VectorRow (distLE q) := ⟨fun a b c hab hbc => le_trans hab hbc⟩
  simp only [top_k_similar]
  exact (List.sorted_insertionSort _ _).sublist (List.take_sublist _ _)

/-- C2: the Similarity Ranker returns at most `k` rows, never a row from the
exclusion set, and the rows are ordered by ascending cosine distance to the
query; `recommend_movies` with `exclude_selected = true` never returns a seed
id, and `get_similar_movies` for base movie `mid` never returns `mid`
itself. -/
theorem similarity_ranker_spec (rows : List VectorRow) (q : List ℝ) (k : ℕ)
    (excl : List ℤ) (st : DBState) (ids : List ℤ) (limit : ℕ) (mid : ℤ)
    (sr qf : Bool) :
    (top_k_similar rows q k excl).length ≤ k ∧
    (∀ r ∈ top_k_similar rows q k excl, r.movie_id ∉ excl) ∧
    (top_k_similar rows q k excl).Sorted (distLE q) ∧
    (∀ l, (recommend_movies st ids limit true sr qf).1 = .ok l →
      ∀ r ∈ l, r.movie_id ∉ ids) ∧
    (∀ l, (get_similar_movies st mid limit sr qf).1 = .ok l →
      ∀ r ∈ l, r.movie_id ≠ mid) := by
  refine ⟨top_k_similar_length_le rows q k excl,
    top_k_similar_not_excluded rows q k excl,
    top_k_similar_sorted rows q k excl, ?_, ?_⟩
  · intro l hl r hr
    by_cases hsr : (sr && !ids.isEmpty) = true
    · simp [recommend_movies, hsr] at hl
    · rcases hp : get_user_preference_vector (lookupVector st) ids with _ | qv
      · simp [recommend_movies, hsr, hp] at hl
        subst hl; simp at hr
      · cases qf
        · simp [recommend_movies, hsr, hp] at hl
          subst hl
          exact top_k_similar_not_excluded _ _ _ _ r hr
        · simp [recommend_movies, hsr, hp] at hl
          subst hl; simp at hr
  · intro l hl r hr
    cases sr
    · rcases hb : lookupVector st mid with _ | v
      · simp [get_similar_movies, hb] at hl
        subst hl; simp at hr
      · cases qf
        · simp [get_similar_movies, hb] at hl
          subst hl
          have h4 := top_k_similar_not_excluded _ _ _ _ r hr
          simpa using h4
        · simp [get_similar_movies, hb] at hl
          subst hl; simp at hr
    · simp [get_similar_movies] at hl

/-- C2 witness: with rows for movies 7 and 5, query `[1, 0]`, `k = 2` and
exclusion set `[5]`, row 7 is returned and its id is not in the exclusion
set. -/
theorem similarity_ranker_spec_witness : rowA.movie_id ∉ ([5] : List ℤ) :=
  (similarity_ranker_spec [rowA, rowB] [1, 0] 2 [5] ⟨[], []⟩ [] 0 0 false false).2.1
    rowA (by simp [top_k_similar, rowA, rowB, List.insertionSort, List.orderedInsert])

/-- C7 counterexample: it is not true that every vector-store failure is
caught and turned into an empty result — when the store raises on
`get_similar_movies`' base-vector read, which runs before the `try` block,
the exception propagates out of the operation instead of an empty list being
returned. -/
theorem store_failure_counterexample :
    (get_similar_movies ⟨[], []⟩ 1 10 true false).1 = .error "store failure" ∧
    (get_similar_movies ⟨[], []⟩ 1 10 true false).1 ≠ .ok [] := by
  constructor
  · rfl
  · intro h
    rw [show (get_similar_movies ⟨[], []⟩ 1 10 true false).1 =
        .error "store failure" from rfl] at h
    exact Except.noConfusion h

/-- C7 (amended): a similarity query raising inside the `try` block is
caught at the ranking boundary and both operations return the empty list;
but a vector-store raise on the preference- or base-vector reads, which run
before the `try` block, propagates out of the operation uncaught (for
`recommend_movies` that read is only reached with a non-empty id list); and
for every outcome neither operation changes the database state. -/
theorem store_failure_degrades_to_empty (st : DBState) (ids : List ℤ)
    (limit : ℕ) (es sr qf : Bool) (mid : ℤ) :
    recommend_movies st ids limit es false true = (.ok [], st) ∧
    get_similar_movies st mid limit false true = (.ok [], st) ∧
    (ids ≠ [] → ∃ e, (recommend_movies st ids limit es true qf).1 = .error e) ∧
    (∃ e, (get_similar_movies st mid limit true qf).1 = .error e) ∧
    (recommend_movies st ids limit es sr qf).2 = st ∧
    (get_similar_movies st mid limit sr qf).2 = st := by
  refine ⟨?_, ?_, ?_, ?_, ?_, ?_⟩
  · rcases h : get_user_preference_vector (lookupVector st) ids with _ | qv <;>
      simp [recommend_movies, h]
  · rcases h : lookupVector st mid with _ | v <;> simp [get_similar_movies, h]
  · intro hids
    have hne : ids.isEmpty = false := by
      cases ids with
      | nil => exact absurd rfl hids
      | cons a l => rfl
    simp [recommend_movies, hne]
  · simp [get_similar_movies]
  · cases sr <;> cases qf <;>
      rcases h : get_user_preference_vector (lookupVector st) ids with _ | qv <;>
      cases hne : ids.isEmpty <;> simp [recommend_movies, h, hne]
  · cases sr <;> cases qf <;> rcases h : lookupVector st mid with _ | v <;>
      simp [get_similar_movies, h]

/-- C7 witness: with a non-empty id list and a raising store,
`recommend_movies` propagates an error instead of returning a result. -/
theorem store_failure_degrades_to_empty_witness :
    ∃ e, (recommend_movies ⟨[], []⟩ [1] 10 true true false).1 = .error e :=
  (store_failure_degrades_to_empty ⟨[], []⟩ [1] 10 true false false 0).2.2.1
    (by decide)

/-- Appending rows to the store cannot shadow an id that already resolves:
the first matching row is unchanged. -/
theorem lookupVector_append_of_isSome (st : DBState) (ids2 : List ℤ)
    (t : List VectorRow) (x : ℤ) (h : (lookupVector st x).isSome) :
    lookupVector ⟨ids2, st.vectors ++ t⟩ x = lookupVector st x := by
  unfold lookupVector at h ⊢
  rcases hf : st.vectors.find? (fun r => r.movie_id == x) with _ | r
  · rw [hf] at h; simp at h
  · simp [List.find?_append, hf]

/-- If an id does not resolve in the store, a lookup after appending rows is
a lookup in the appended rows. -/
theorem lookupVector_append_of_none (st : DBState) (ids2 : List ℤ)
    (t : List VectorRow) (x : ℤ) (h : lookupVector st x = none) :
    lookupVector ⟨ids2, st.vectors ++ t⟩ x =
      (t.find? (fun r => r.movie_id == x)).map VectorRow.tfidf_vector := by
  unfold lookupVector at h ⊢
  rcases hf : st.vectors.find? (fun r => r.movie_id == x) with _ | r
  · simp [List.find?_append, hf]
  · rw [hf] at h; simp at h

/-- One loop iteration only ever appends vector rows and never touches the
movie table. -/
theorem ensure_step_state (gen : ℤ → Option (List ℝ))
    (acc : EnsureResult × DBState) (x : ℤ) :
    ∃ t, (ensure_step gen acc x).2 = ⟨acc.2.movie_ids, acc.2.vectors ++ t⟩ := by
  rcases hl : lookupVector acc.2 x with _ | v <;> simp only [ensure_step, hl]
  · split_ifs with hm
    · rcases hg : gen x with _ | w <;> simp only [hg]
      · exact ⟨[], by cases acc.2 with | _ => simp⟩
      · exact ⟨[⟨x, w⟩], by cases acc.2 with | _ => simp⟩
    · exact ⟨[], by cases acc.2 with | _ => simp⟩
  · exact ⟨[], by cases acc.2 with | _ => simp⟩

/-- Counting invariants of one loop iteration: the total is unchanged, the
failure count never decreases, exactly one of the three counters is bumped,
and the failed-id list grows together with the failure counter. -/
theorem ensure_step_counts (gen : ℤ → Option (List ℝ))
    (acc : EnsureResult × DBState) (x : ℤ) :
    (ensure_step gen acc x).1.total = acc.1.total ∧
    acc.1.failed ≤ (ensure_step gen acc x).1.failed ∧
    (ensure_step gen acc x).1.already_exists + (ensure_step gen acc x).1.newly_created +
        (ensure_step gen acc x).1.failed =
      acc.1.already_exists + acc.1.newly_created + acc.1.failed + 1 ∧
    (ensure_step gen acc x).1.failed_ids.length + acc.1.failed =
      acc.1.failed_ids.length + (ensure_step gen acc x).1.failed := by
  rcases hl : lookupVector acc.2 x with _ | v <;> simp only [ensure_step, hl]
  · split_ifs with hm
    · rcases hg : gen x with _ | w <;> simp only [hg] <;> (simp; omega)
    · simp; omega
  · simp; omega

/-- An iteration that does not bump the failure counter leaves the processed
id with a stored vector. -/
theorem ensure_step_no_fail (gen : ℤ → Option (List ℝ))
    (acc : EnsureResult × DBState) (x : ℤ)
    (h : (ensure_step gen acc x).1.failed = acc.1.failed) :
    (lookupVector (ensure_step gen acc x).2 x).isSome := by
  rcases hl : lookupVector acc.2 x with _ | v <;> simp only [ensure_step, hl] at h ⊢
  · split_ifs at h ⊢ with hm
    · rcases hg : gen x with _ | w <;> simp only [hg] at h ⊢
      · simp at h
      · rw [lookupVector_append_of_none _ _ _ _ hl]
        simp [List.find?]
    · simp at h
  · simp [hl]

/-- The whole loop only ever appends vector rows and never touches the movie
table. -/
theorem ensure_fold_state (gen : ℤ → Option (List ℝ)) (ids : List ℤ) :
    ∀ acc : EnsureResult × DBState,
      ∃ t, (ids.foldl (ensure_step gen) acc).2 =
        ⟨acc.2.movie_ids, acc.2.vectors ++ t⟩ := by
  induction ids with
  | nil =>
    intro acc
    refine ⟨[], ?_⟩
    obtain ⟨r, s⟩ := acc
    obtain ⟨mi, vs⟩ := s
    simp
  | cons x xs ih =>
    intro acc
    obtain ⟨t₁, h₁⟩ := ensure_step_state gen acc x
    obtain ⟨t₂, h₂⟩ := ih (ensure_step gen acc x)
    refine ⟨t₁ ++ t₂, ?_⟩
    rw [List.foldl_cons, h₂, h₁]
    simp

/-- Counting invariants of the whole loop. -/
theorem ensure_fold_counts (gen : ℤ → Option (List ℝ)) (ids : List ℤ) :
    ∀ acc : EnsureResult × DBState,
      (ids.foldl (ensure_step gen) acc).1.total = acc.1.total ∧
      acc.1.failed ≤ (ids.foldl (ensure_step gen) acc).1.failed ∧
      (ids.foldl (ensure_step gen) acc).1.already_exists +
          (ids.foldl (ensure_step gen) acc).1.newly_created +
          (ids.foldl (ensure_step gen) acc).1.failed =
        acc.1.already_exists + acc.1.newly_created + acc.1.failed + ids.length ∧
      (ids.foldl (ensure_step gen) acc).1.failed_ids.length + acc.1.failed =
        acc.1.failed_ids.length + (ids.foldl (ensure_step gen) acc).1.failed := by
  induction ids with
  | nil => exact fun acc => ⟨rfl, le_refl _, by simp, by simp⟩
  | cons x xs ih =>
    intro acc
    obtain ⟨s₁, s₂, s₃, s₄⟩ := ensure_step_counts gen acc x
    obtain ⟨f₁, f₂, f₃, f₄⟩ := ih (ensure_step gen acc x)
    rw [List.foldl_cons]
    refine ⟨by omega, by omega, by simp only [List.length_cons]; omega, by omega⟩

/-- A stored vector survives the rest of the loop. -/
theorem ensure_fold_lookup_isSome (gen : ℤ → Option (List ℝ)) (ids : List ℤ)
    (acc : EnsureResult × DBState) (x : ℤ)
    (h : (lookupVector acc.2 x).isSome) :
    (lookupVector (ids.foldl (ensure_step gen) acc).2 x).isSome := by
  obtain ⟨t, ht⟩ := ensure_fold_state gen ids acc
  rw [ht, lookupVector_append_of_isSome _ _ _ _ h]
  exact h

/-- If the loop as a whole records no new failure, every processed id ends
the loop with a stored vector. -/
theorem ensure_fold_no_fail (gen : ℤ → Option (List ℝ)) (ids : List ℤ) :
    ∀ acc : EnsureResult × DBState,
      (ids.foldl (ensure_step gen) acc).1.failed = acc.1.failed →
      ∀ x ∈ ids, (lookupVector (ids.foldl (ensure_step gen) acc).2 x).isSome := by
  induction ids with
  | nil => intro acc _ x hx; simp at hx
  | cons y ys ih =>
    intro acc h x hx
    obtain ⟨-, hs₂, -, -⟩ := ensure_step_counts gen acc y
    obtain ⟨-, hf₂, -, -⟩ := ensure_fold_counts gen ys (ensure_step gen acc y)
    rw [List.foldl_cons] at h
    have hstep : (ensure_step gen acc y).1.failed = acc.1.failed := by omega
    have hrest : (ys.foldl (ensure_step gen) (ensure_step gen acc y)).1.failed =
        (ensure_step gen acc y).1.failed := by omega
    rw [List.foldl_cons]
    rcases List.mem_cons.mp hx with hxy | hxs
    · subst hxy
      exact ensure_fold_lookup_isSome gen ys _ x (ensure_step_no_fail gen acc x hstep)
    · exact ih (ensure_step gen acc y) hrest x hxs

/-- When an id already has a stored vector, one loop iteration only bumps the
`already_exists` counter and leaves the state untouched. -/
theorem ensure_step_already (gen : ℤ → Option (List ℝ))
    (acc : EnsureResult × DBState) (x : ℤ)
    (h : (lookupVector acc.2 x).isSome) :
    ensure_step gen acc x =
      ({ acc.1 with already_exists := acc.1.already_exists + 1 }, acc.2) := by
  rcases hl : lookupVector acc.2 x with _ | v
  · rw [hl] at h; simp at h
  · simp only [ensure_step, hl]

/-- When every requested id already has a stored vector, the loop reports
them all as `already_exists` and changes nothing else. -/
theorem ensure_fold_all_exist (gen : ℤ → Option (List ℝ)) (ids : List ℤ) :
    ∀ acc : EnsureResult × DBState,
      (∀ x ∈ ids, (lookupVector acc.2 x).isSome) →
      ids.foldl (ensure_step gen) acc =
        ({ acc.1 with already_exists := acc.1.already_exists + ids.length }, acc.2) := by
  induction ids with
  | nil =>
    intro acc _
    obtain ⟨r, s⟩ := acc
    simp
  | cons y ys ih =>
    intro acc h
    rw [List.foldl_cons, ensure_step_already gen acc y (h y (by simp)),
      ih ({ acc.1 with already_exists := acc.1.already_exists + 1 }, acc.2)
        (fun x hx => h x (by simp [hx]))]
    refine Prod.ext ?_ rfl
    simp only [List.length_cons, EnsureResult.mk.injEq]
    exact ⟨trivial, by omega, trivial, trivial, trivial⟩

/-- C5: `ensure_vectors_exist` returns the counts of already-existing,
newly-created and failed ids together with the explicit failed-id list, and
it is idempotent per id: after a fully successful call, re-invoking it with
the same id list reports every id as already existing, creates nothing,
fails nothing and leaves the store unchanged. -/
theorem ensure_vectors_exist_spec (gen : ℤ → Option (List ℝ)) (ids : List ℤ)
    (st : DBState) (h : (ensure_vectors_exist gen ids st).1.failed = 0) :
    (ensure_vectors_exist gen ids st).1.total = ids.length ∧
    (ensure_vectors_exist gen ids st).1.already_exists +
        (ensure_vectors_exist gen ids st).1.newly_created +
        (ensure_vectors_exist gen ids st).1.failed = ids.length ∧
    (ensure_vectors_exist gen ids st).1.failed_ids.length =
      (ensure_vectors_exist gen ids st).1.failed ∧
    (ensure_vectors_exist gen ids ((ensure_vectors_exist gen ids st).2)).1.already_exists =
      ids.length ∧
    (ensure_vectors_exist gen ids ((ensure_vectors_exist gen ids st).2)).1.newly_created = 0 ∧
    (ensure_vectors_exist gen ids ((ensure_vectors_exist gen ids st).2)).1.failed = 0 ∧
    (ensure_vectors_exist gen ids ((ensure_vectors_exist gen ids st).2)).2 =
      (ensure_vectors_exist gen ids st).2 := by
  obtain ⟨c₁, c₂, c₃, c₄⟩ :=
    ensure_fold_counts gen ids (⟨ids.length, 0, 0, 0, []⟩, st)
  have hall := ensure_fold_no_fail gen ids (⟨ids.length, 0, 0, 0, []⟩, st) h
  have hsec := ensure_fold_all_exist gen ids
    (⟨ids.length, 0, 0, 0, []⟩, (ensure_vectors_exist gen ids st).2) hall
  have e2 : ensure_vectors_exist gen ids ((ensure_vectors_exist gen ids st).2) =
      (⟨ids.length, 0 + ids.length, 0, 0, []⟩,
        (ensure_vectors_exist gen ids st).2) := hsec
  refine ⟨c₁, ?_, ?_, ?_, ?_, ?_, ?_⟩
  · have h2 : (ensure_vectors_exist gen ids st).1.already_exists +
        (ensure_vectors_exist gen ids st).1.newly_created +
        (ensure_vectors_exist gen ids st).1.failed = 0 + 0 + 0 + ids.length := c₃
    omega
  · have h4 : (ensure_vectors_exist gen ids st).1.failed_ids.length + 0 =
        ([] : List ℤ).length + (ensure_vectors_exist gen ids st).1.failed := c₄
    simp only [List.length_nil] at h4
    omega
  · rw [e2]; simp
  · rw [e2]
  · rw [e2]
  · rw [e2]

/-- C5 witness: with an always-succeeding generator, movie 3 present and no
stored vectors, the first call fails nothing and the second call reports the
single id as already existing. -/
theorem ensure_vectors_exist_spec_witness :
    (ensure_vectors_exist genW [3] dbW).1.failed = 0 ∧
    (ensure_vectors_exist genW [3]
        ((ensure_vectors_exist genW [3] dbW).2)).1.already_exists =
      ([3] : List ℤ).length :=
  ⟨rfl, (ensure_vectors_exist_spec genW [3] dbW rfl).2.2.2.1⟩

/-- Dropping tokens that pass a test satisfied by `t` does not change the
number of occurrences of `t`. -/
theorem countTok_filter (t : String) (q : String → Bool) (hq : q t = true)
    (tokens : List String) : countTok t (tokens.filter q) = countTok t tokens := by
  unfold countTok
  rw [List.filter_filter]
  congr 1
  apply List.filter_congr
  intro s _
  by_cases h : s = t
  · subst h; simp [hq]
  · simp [h]

/-- Tokens absent from the trained vocabulary contribute zero weight: the raw
weight vector is unchanged when they are dropped from the token sequence. -/
theorem rawWeights_filter_vocab (V : Vectorizer) (tokens : List String) :
    rawWeights V (tokens.filter (fun t => (V.vocab.map Prod.fst).contains t)) =
      rawWeights V tokens := by
  unfold rawWeights
  apply List.map_congr_left
  intro p hp
  have hq : ((V.vocab.map Prod.fst).contains p.1) = true := by
    simpa using List.mem_map_of_mem Prod.fst hp
  rw [countTok_filter _ _ hq]

/-- With no tokens at all, every vocabulary coordinate is zero. -/
theorem rawWeights_nil (V : Vectorizer) :
    rawWeights V [] = List.replicate V.vocab.length 0 := by
  unfold rawWeights
  have hz : ∀ p : String × ℝ, sublinearTf (countTok p.1 []) * p.2 = 0 := by
    intro p; simp [countTok, sublinearTf]
  calc V.vocab.map (fun p => sublinearTf (countTok p.1 []) * p.2)
      = V.vocab.map (fun _ => (0 : ℝ)) := List.map_congr_left (fun p _ => hz p)
    _ = List.replicate V.vocab.length 0 := by simp [List.map_const']

/-- A zero vector has zero squared norm. -/
theorem sumSq_replicate_zero (n : ℕ) : sumSq (List.replicate n (0 : ℝ)) = 0 := by
  simp [sumSq, List.map_replicate, List.sum_replicate]

/-- Normalization leaves a zero vector unchanged (no division by zero). -/
theorem normalizeIfPos_replicate_zero (n : ℕ) :
    normalizeIfPos (List.replicate n (0 : ℝ)) = List.replicate n 0 := by
  have hn : l2norm (List.replicate n (0 : ℝ)) = 0 := by
    unfold l2norm; rw [sumSq_replicate_zero, Real.sqrt_zero]
  simp [normalizeIfPos, hn]

/-- Normalizing the dimension of a zero vector yields the 512-long zero
vector. -/
theorem pad_or_truncate_replicate_zero (n t : ℕ) :
    pad_or_truncate_vector (List.replicate n (0 : ℝ)) t = List.replicate t 0 := by
  simp only [pad_or_truncate_vector, List.length_replicate]
  split_ifs with h1 h2
  · rw [h1]
  · rw [List.take_replicate]; congr 1; omega
  · rw [← List.replicate_add]; congr 1; omega

/-- C6: vectorizing one item fails exactly when no trained model is
available — no vectorizer passed and none loadable from disk; with a model
the transform succeeds for any input text, and tokens absent from the
trained vocabulary contribute zero weight rather than an error. -/
theorem generate_tfidf_vector_spec (m : Movie) (vz ld : Option Vectorizer) :
    ((∃ e, generate_tfidf_vector m vz ld = .error e) ↔ (vz = none ∧ ld = none)) ∧
    (∀ V, vz = some V ∨ (vz = none ∧ ld = some V) →
      generate_tfidf_vector m vz ld =
        .ok (pad_or_truncate_vector (transform V (create_movie_text m)) VECTOR_DIM)) ∧
    (∀ V tokens,
      rawWeights V (tokens.filter (fun t => (V.vocab.map Prod.fst).contains t)) =
        rawWeights V tokens) := by
  refine ⟨?_, ?_, fun V tokens => rawWeights_filter_vocab V tokens⟩
  · cases vz with
    | some V => simp [generate_tfidf_vector]
    | none =>
      cases ld with
      | some V => simp [generate_tfidf_vector]
      | none => simp [generate_tfidf_vector]
  · intro V hV
    rcases hV with h | ⟨h1, h2⟩
    · subst h; rfl
    · subst h1; subst h2; rfl

/-- C6 witness: with a concrete trained model the transform succeeds, and
with no model at all the call raises. -/
theorem generate_tfidf_vector_spec_witness :
    generate_tfidf_vector movieW (some vzW) none =
      .ok (pad_or_truncate_vector (transform vzW (create_movie_text movieW))
        VECTOR_DIM) ∧
    (∃ e, generate_tfidf_vector movieW none none = .error e) :=
  ⟨(generate_tfidf_vector_spec movieW (some vzW) none).2.1 vzW (Or.inl rfl),
   (generate_tfidf_vector_spec movieW none none).1.mpr ⟨rfl, rfl⟩⟩

/-- C8: an item with no genre, overview or keyword text composes to the
empty document, and vectorizing it with a trained model yields the
512-dimension zero vector with no error. -/
theorem empty_item_zero_vector (m : Movie) (V : Vectorizer)
    (ld : Option Vectorizer) (hg : m.genres = [])
    (hov : overviewPresent m = false) (hk : m.keywords = [])
    (htok : V.tokenize "" = []) :
    create_movie_text m = "" ∧
    generate_tfidf_vector m (some V) ld = .ok (List.replicate VECTOR_DIM 0) := by
  have hdoc := create_movie_text_of_empty m hg hov hk
  refine ⟨hdoc, ?_⟩
  simp only [generate_tfidf_vector, hdoc, transform, htok, rawWeights_nil,
    normalizeIfPos_replicate_zero, pad_or_truncate_replicate_zero]

/-- C8 witness: the concrete empty movie vectorizes to the zero vector under
the concrete model. -/
theorem empty_item_zero_vector_witness :
    generate_tfidf_vector movieW (some vzW) none =
      .ok (List.replicate VECTOR_DIM 0) :=
  (empty_item_zero_vector movieW vzW none rfl rfl rfl rfl).2

/-- C9: whether pickling succeeds or raises, after `save_vectorizer` the
vectorizer object is exactly what it was before the call — in particular its
tokenizer, detached only temporarily, is restored by the `finally` block —
and the call succeeds exactly when the pickle dump does. -/
theorem save_vectorizer_spec {Tok Γ : Type} (dumpOk : Bool)
    (v : PickleVectorizer Tok Γ) :
    (save_vectorizer dumpOk v).2 = v ∧
    (save_vectorizer dumpOk v).2.tokenizer = v.tokenizer ∧
    ((save_vectorizer dumpOk v).1 = .ok () ↔ dumpOk = true) := by
  obtain ⟨tok, fit⟩ := v
  refine ⟨rfl, rfl, ?_⟩
  cases dumpOk <;> simp [save_vectorizer]

/-- C10: `save_movie_vector` returns `True` exactly when the commit
succeeds; any raising step rolls the session back, leaving the store
unchanged, and returns `False` without propagating the exception; a
successful call publishes exactly the upsert. -/
theorem save_movie_vector_spec (movie_id : ℤ) (vector : List ℝ)
    (store : List VectorRow) (fq fc : Bool) :
    ((save_movie_vector movie_id vector store fq fc).1 = true ↔
      fq = false ∧ fc = false) ∧
    ((save_movie_vector movie_id vector store fq fc).1 = false →
      (save_movie_vector movie_id vector store fq fc).2 = store) ∧
    ((save_movie_vector movie_id vector store fq fc).1 = true →
      (save_movie_vector movie_id vector store fq fc).2 =
        upsertVector store movie_id vector) := by
  cases fq <;> cases fc <;> simp [save_movie_vector]

/-- C10 witness: a fully successful call publishes the upsert, and a call
whose commit raises leaves the empty store empty. -/
theorem save_movie_vector_spec_witness :
    (save_movie_vector 1 [2] [] false false).2 = upsertVector [] 1 [2] ∧
    (save_movie_vector 1 [2] [] false true).2 = [] :=
  ⟨(save_movie_vector_spec 1 [2] [] false false).2.2 rfl,
   (save_movie_vector_spec 1 [2] [] false true).2.1 rfl⟩

end MovieRec
